import Mathlib

/-!
Shallow embedding of the books-api service (src/index.js): data model,
list-route query handling (pagination, search, sort), create-route
validation and upload pipeline, and get-by-id lookup.
-/

namespace BooksApi

/-- A stored Book document (src/index.js bookSchema, lines 62-88).
`createdAt`/`updatedAt` are timestamps modelled as naturals. -/
structure Book where
  id : String
  title : String
  author : String
  description : String
  image : Option String
  createdAt : Nat
  updatedAt : Nat
deriving DecidableEq

/-! ## JS `parseInt` and the list route's query defaulting (lines 238-242) -/

/-- Decimal digit value of a character, if any. -/
def decDigit (c : Char) : Option Nat :=
  if '0' ≤ c ∧ c ≤ '9' then some (c.toNat - 48) else none

/-- Hexadecimal digit value of a character, if any. -/
def hexDigit (c : Char) : Option Nat :=
  if '0' ≤ c ∧ c ≤ '9' then some (c.toNat - 48)
  else if 'a' ≤ c ∧ c ≤ 'f' then some (c.toNat - 87)
  else if 'A' ≤ c ∧ c ≤ 'F' then some (c.toNat - 55)
  else none

/-- Accumulate the longest digit prefix; `none` when no digit was read
(JS `parseInt` yields `NaN` then). -/
def parseDigits (base : Nat) (dig : Char → Option Nat) :
    List Char → Nat → Bool → Option Nat
  | [], acc, seen => if seen then some acc else none
  | c :: cs, acc, seen =>
    match dig c with
    | some d => parseDigits base dig cs (acc * base + d) true
    | none => if seen then some acc else none

/-- JS whitespace skipped by `parseInt`. -/
def isJsSpace (c : Char) : Bool :=
  c = ' ' ∨ c = '\t' ∨ c = '\n' ∨ c = '\r'

/-- JS `parseInt(s)` with no radix argument: skip leading whitespace,
optional sign, `0x`/`0X` hex prefix, longest digit prefix; `none` for `NaN`. -/
def parseIntJS (s : String) : Option Int :=
  let cs := s.data.dropWhile isJsSpace
  let signed : Int × List Char :=
    match cs with
    | '-' :: r => (-1, r)
    | '+' :: r => (1, r)
    | _ => (1, cs)
  let body : Option Nat :=
    match signed.2 with
    | '0' :: x :: r =>
      if x = 'x' ∨ x = 'X' then parseDigits 16 hexDigit r 0 false
      else parseDigits 10 decDigit signed.2 0 false
    | l => parseDigits 10 decDigit l 0 false
  body.map (fun n => signed.1 * (n : Int))

/-- `parseInt(req.query.page) || 1` (line 238): an absent value, a `NaN`
parse, or a parse to `0` falls back to 1; any other integer is kept. -/
def effectivePage (q : Option String) : Int :=
  match q.bind parseIntJS with
  | none => 1
  | some n => if n = 0 then 1 else n

/-- `parseInt(req.query.limit) || 10` (line 239). -/
def effectiveLimit (q : Option String) : Int :=
  match q.bind parseIntJS with
  | none => 10
  | some n => if n = 0 then 10 else n

/-- `req.query.search || ""` (line 240). -/
def effectiveSearch (q : Option String) : String := q.getD ""

/-- `req.query.sortBy || "createdAt"` (line 241): the empty string is falsy
in JS; any other provided string is used unchanged. -/
def effectiveSortBy (q : Option String) : String :=
  match q with
  | none => "createdAt"
  | some s => if s = "" then "createdAt" else s

/-! ## The `$regex ... $options: "i"` search (lines 245-254)

The route hands the raw search string to MongoDB as a case-insensitive
regular expression.  `regexSearch` embeds the fragment of that regex
dialect the service can exercise with patterns made of literal characters
and the `.` metacharacter (any-character wildcard); all other characters
match themselves case-insensitively. -/

/-- One regex pattern character against one text character, `"i"` option:
`.` matches anything, anything else matches up to ASCII case. -/
def charMatches (p c : Char) : Bool :=
  p = '.' ∨ p.toLower = c.toLower

/-- Does the pattern match a prefix of the text? -/
def acceptsAt : List Char → List Char → Bool
  | [], _ => true
  | _ :: _, [] => false
  | p :: ps, c :: cs => charMatches p c && acceptsAt ps cs

/-- Unanchored regex match: the pattern matches at some position. -/
def regexSearch (ps : List Char) : List Char → Bool
  | [] => acceptsAt ps []
  | c :: cs => acceptsAt ps (c :: cs) || regexSearch ps cs

/-- MongoDB `{ $regex: pattern, $options: "i" }` on a string field. -/
def mongoRegexMatchCI (pattern text : String) : Bool :=
  regexSearch pattern.data text.data

/-- A book matches the `$or` search query of lines 247-253. -/
def searchMatches (search : String) (b : Book) : Bool :=
  mongoRegexMatchCI search b.title || mongoRegexMatchCI search b.author ||
    mongoRegexMatchCI search b.description

/-- Line 246: an empty search leaves the query unfiltered. -/
def matchedBooks (store : List Book) (search : String) : List Book :=
  if search = "" then store else store.filter (searchMatches search)

/-! Spec-side notion, for comparison with the code's regex matching:
case-insensitive *literal substring* occurrence. -/

/-- Case-insensitive literal prefix on character lists. -/
def literalPrefixCI : List Char → List Char → Bool
  | [], _ => true
  | _ :: _, [] => false
  | p :: ps, c :: cs => (p.toLower = c.toLower) && literalPrefixCI ps cs

/-- Case-insensitive literal substring on character lists. -/
def literalSubCI (ns : List Char) : List Char → Bool
  | [] => literalPrefixCI ns []
  | c :: cs => literalPrefixCI ns (c :: cs) || literalSubCI ns cs

/-- The spec's matching relation: `needle` occurs case-insensitively as a
literal substring of `hay`. -/
def containsCI (needle hay : String) : Bool :=
  literalSubCI needle.data hay.data

/-- Characters with a special meaning in the regex dialect the search
string is interpreted in. -/
def regexMetachars : List Char :=
  ['.', '*', '+', '?', '(', ')', '[', ']', Char.ofNat 123, Char.ofNat 125,
    '|', '^', '$', '\\']

/-- A search string free of regex metacharacters. -/
def noRegexMeta (s : String) : Bool :=
  s.data.all (fun c => ¬ regexMetachars.contains c)

/-! ## Sorting (`.sort({ [sortBy]: sortOrder })`, line 265)

MongoDB sorts by the named document field.  Fields of the book schema
compare by their values; sorting by `image` compares the optional string
with missing-before-present (Mongo's null-first ascending rule); any field
name no document carries compares everything equal. -/

/-- Mongo ordering on an optional string field. -/
def optStrOrd (a b : Option String) : Ordering :=
  match a, b with
  | none, none => .eq
  | none, some _ => .lt
  | some _, none => .gt
  | some x, some y => compare x y

/-- Ordering of two books under a dynamic sort-field name. -/
def fieldOrd (field : String) (a b : Book) : Ordering :=
  if field = "title" then compare a.title b.title
  else if field = "author" then compare a.author b.author
  else if field = "createdAt" then compare a.createdAt b.createdAt
  else if field = "updatedAt" then compare a.updatedAt b.updatedAt
  else if field = "image" then optStrOrd a.image b.image
  else .eq

/-- `sortOrder === "asc" ? 1 : -1` applied to the field ordering. -/
def bookLE (field : String) (asc : Bool) (a b : Book) : Bool :=
  match (if asc then fieldOrd field a b else fieldOrd field b a) with
  | .gt => false
  | _ => true

/-- Insert into a sorted run (kept after equal elements). -/
def insertLE (le : Book → Book → Bool) (b : Book) : List Book → List Book
  | [] => [b]
  | x :: xs => if le b x then b :: x :: xs else x :: insertLE le b xs

/-- Stable insertion sort embedding the store's sort of the matched set. -/
def sortBooks (le : Book → Book → Bool) : List Book → List Book
  | [] => []
  | x :: xs => insertLE le x (sortBooks le xs)

/-! ## The list route (GET /api/books, lines 236-288) -/

/-- The raw query string parameters of a list request; `none` is an absent
parameter. -/
structure ListQuery where
  page : Option String := none
  limit : Option String := none
  search : Option String := none
  sortBy : Option String := none
  sortOrder : Option String := none

/-- The `pagination` object of the list response plus its `data`. -/
structure ListResult where
  data : List Book
  currentPage : Int
  totalPages : Int
  totalBooks : Nat
  hasNextPage : Bool
  hasPrevPage : Bool
  limit : Int
deriving DecidableEq

/-- JS `Math.ceil(totalBooks / limit)` for a nonzero integer `limit`
(the route's limit is never 0: a parsed 0 falls back to 10). -/
def jsCeilDiv (a : Nat) (b : Int) : Int :=
  if 0 < b then ((a + b.toNat - 1) / b.toNat : Nat)
  else -((a / b.natAbs : Nat))

/-- `const skip = (page - 1) * limit` (line 257), from the unclamped
effective page and limit. -/
def listSkip (q : ListQuery) : Int :=
  (effectivePage q.page - 1) * effectiveLimit q.limit

/-- The list route: filter by the search query, count, sort, skip, limit,
and shape the pagination envelope (lines 238-280).  `skip`/`limit` reach
the store as integers; the happy path exercised here has them
non-negative, embedded via `Int.toNat`. -/
def listBooks (store : List Book) (q : ListQuery) : ListResult :=
  let page := effectivePage q.page
  let limit := effectiveLimit q.limit
  let search := effectiveSearch q.search
  let matched := matchedBooks store search
  let totalBooks := matched.length
  let totalPages := jsCeilDiv totalBooks limit
  let sorted := sortBooks (bookLE (effectiveSortBy q.sortBy) (q.sortOrder = some "asc")) matched
  { data := (sorted.drop (listSkip q).toNat).take limit.toNat
    currentPage := page
    totalPages := totalPages
    totalBooks := totalBooks
    hasNextPage := page < totalPages
    hasPrevPage := 1 < page
    limit := limit }

/-! ## Create-route field validation (addBookValidation, lines 99-120)

Each express-validator chain runs its validators in order on the *raw*
incoming value and only then applies the `.trim()` sanitizer, so the
length checks see the untrimmed string while the trimmed string is what
reaches the schema.  A missing field validates as the empty string. -/

/-- One chain: `.notEmpty()` then `.isLength({min, max})` on the raw
value; the error messages of the failing validators, in order. -/
def fieldErrors (value : String) (minLen maxLen : Nat)
    (reqMsg lenMsg : String) : List String :=
  (if value = "" then [reqMsg] else []) ++
    (if minLen ≤ value.length ∧ value.length ≤ maxLen then [] else [lenMsg])

/-- All validation errors of a create request's three text fields. -/
def addBookValidation (title author description : String) : List String :=
  fieldErrors title 1 200 "Title is required"
      "Title must be between 1 and 200 characters" ++
    fieldErrors author 1 100 "Author is required"
      "Author must be between 1 and 100 characters" ++
    fieldErrors description 10 1000 "Description is required"
      "Description must be between 10 and 1000 characters"

/-- JS `String.prototype.trim` on ASCII whitespace: strip it from both
ends. -/
def jsTrim (s : String) : String :=
  ⟨((s.data.dropWhile isJsSpace).reverse.dropWhile isJsSpace).reverse⟩

/-- The value the `.trim()` sanitizer (and the schema's `trim: true`)
stores for a field that passed validation. -/
def storedField (raw : String) : String := jsTrim raw

/-! ## Get-by-id (getBookValidation line 122-124, route lines 206-233) -/

/-- validator.js `isMongoId`: exactly 24 hexadecimal characters. -/
def isHexChar (c : Char) : Bool :=
  ('0' ≤ c && c ≤ '9') || ('a' ≤ c && c ≤ 'f') || ('A' ≤ c && c ≤ 'F')

/-- Well-formedness of a store identifier, checked before any lookup. -/
def isMongoId (s : String) : Bool :=
  s.length = 24 && s.data.all isHexChar

/-- Outcome of GET /api/books/:id. -/
inductive GetBookResult where
  | invalidId
  | notFound
  | found (b : Book)
deriving DecidableEq

/-- The get-by-id route: the id-format validation middleware runs first
and short-circuits with a 400 before `Book.findById` is reached; a
well-formed id that matches nothing yields the 404 branch. -/
def getBookById (store : List Book) (id : String) : GetBookResult :=
  if isMongoId id then
    match store.find? (fun b => b.id == id) with
    | some b => .found b
    | none => .notFound
  else .invalidId

/-! ## Create route and upload pipeline (POST /api/books)

`upload.single("image")` (multer, lines 24-50) runs first: `fileFilter`
inspects the declared content type before any bytes are written; an
accepted file is streamed to disk, and a file that overruns the
`fileSize` limit mid-stream is aborted and its partial write removed,
surfacing `MulterError("LIMIT_FILE_SIZE")`.  Errors from the upload stage
skip the route handler and land in the global error handler (lines
307-323), which maps `LIMIT_FILE_SIZE` to a 400 and everything else —
including the plain `Error` thrown by `fileFilter` — to a 500.
`handleValidationErrors` (lines 127-144) and the route's catch block
(lines 177-201) both unlink an already-uploaded file with a logged,
never-propagated `fs.unlink` callback before responding. -/

/-- An incoming multipart file: declared content type, byte size, and the
name multer generates for it. -/
structure IncomingFile where
  mimetype : String
  size : Nat
  filename : String
deriving DecidableEq

/-- Observable steps of one create request, in order. -/
inductive Action where
  | persistFile (name : String)
  | unlinkFile (name : String)
  | logDeleteError
  | dbWrite
  | respond (status : Nat)
deriving DecidableEq

/-- Upload-stage failures. -/
inductive UploadErr where
  | notImage
  | fileTooLarge
deriving DecidableEq

/-- Outcome of the `book.save()` call. -/
inductive SaveOutcome where
  | ok
  | validationError
  | persistenceError
deriving DecidableEq

/-- `fileSize: 5 * 1024 * 1024` (line 48). -/
def maxFileSize : Nat := 5 * 1024 * 1024

/-- Case-sensitive list prefix, embedding JS `String.startsWith`. -/
def charsPrefix : List Char → List Char → Bool
  | [], _ => true
  | _ :: _, [] => false
  | p :: ps, c :: cs => (p = c) && charsPrefix ps cs

/-- `fileFilter` (lines 35-42): only `image/*` content types pass
(`file.mimetype.startsWith("image/")`). -/
def fileFilterOk (f : IncomingFile) : Bool :=
  charsPrefix "image/".data f.mimetype.data

/-- The multer stage: filter, then stream to storage under the size
limit.  Returns the stored file (if any) and the storage actions taken. -/
def processUpload (file : Option IncomingFile) :
    Except UploadErr (Option IncomingFile) × List Action :=
  match file with
  | none => (.ok none, [])
  | some f =>
    if fileFilterOk f then
      if f.size ≤ maxFileSize then (.ok (some f), [.persistFile f.filename])
      else (.error .fileTooLarge, [.persistFile f.filename, .unlinkFile f.filename])
    else (.error .notImage, [])

/-- Global error handler's status for an upload error: `LIMIT_FILE_SIZE`
is a `MulterError` and gets 400; the `fileFilter` error is a plain
`Error` and falls through to the generic 500 branch. -/
def uploadErrStatus : UploadErr → Nat
  | .notImage => 500
  | .fileTooLarge => 400

/-- `fs.unlink(req.file.path, cb)` on a kept upload: the delete is
issued, and a failing delete is only logged. -/
def unlinkActions (stored : Option IncomingFile) (deleteOk : Bool) : List Action :=
  match stored with
  | none => []
  | some f => [.unlinkFile f.filename] ++ (if deleteOk then [] else [.logDeleteError])

/-- The whole create request as its ordered action trace.  `fieldsValid`
is whether `addBookValidation` produced no errors, `save` the outcome of
`book.save()`, `deleteOk` whether a compensating unlink succeeds. -/
def createBook (file : Option IncomingFile) (fieldsValid : Bool)
    (save : SaveOutcome) (deleteOk : Bool) : List Action :=
  match processUpload file with
  | (.error e, acts) => acts ++ [.respond (uploadErrStatus e)]
  | (.ok stored, acts) =>
    if fieldsValid then
      match save with
      | .ok => acts ++ [.dbWrite, .respond 201]
      | .validationError =>
        acts ++ [.dbWrite] ++ unlinkActions stored deleteOk ++ [.respond 400]
      | .persistenceError =>
        acts ++ [.dbWrite] ++ unlinkActions stored deleteOk ++ [.respond 500]
    else acts ++ unlinkActions stored deleteOk ++ [.respond 400]

/-- The status of the response a trace carries. -/
def responseStatus : List Action → Option Nat
  | [] => none
  | .respond s :: _ => some s
  | _ :: rest => responseStatus rest

/-! ## Concrete fixtures -/

/-- The spec's running example book. -/
def gatsbyBook : Book :=
  { id := "64f5a1b2c3d4e5f6a7b8c9d0"
    title := "The Great Gatsby"
    author := "F. Scott Fitzgerald"
    description := "A classic American novel about the Jazz Age"
    image := none
    createdAt := 0
    updatedAt := 0 }

/-- A small valid book, distinguishable only by timestamp. -/
def mkBook (i : Nat) : Book :=
  { id := "64f5a1b2c3d4e5f6a7b8c9d0"
    title := "Some Title"
    author := "Some Author"
    description := "A description with enough characters"
    image := none
    createdAt := i
    updatedAt := i }

/-- A store of 47 books, for the spec's pagination example. -/
def store47 : List Book := (List.range 47).map mkBook

/-- Two books whose `image` order is the reverse of their `createdAt`
order, to observe the sort field in use. -/
def bookImgZ : Book :=
  { id := "64f5a1b2c3d4e5f6a7b8c9d1"
    title := "Alpha"
    author := "Author One"
    description := "First demonstration record here"
    image := some "/uploads/z.png"
    createdAt := 0
    updatedAt := 0 }

def bookImgA : Book :=
  { id := "64f5a1b2c3d4e5f6a7b8c9d2"
    title := "Beta"
    author := "Author Two"
    description := "Second demonstration record here"
    image := some "/uploads/a.png"
    createdAt := 1
    updatedAt := 1 }

/-- A small in-range upload that is not an image. -/
def pdfFile : IncomingFile :=
  { mimetype := "application/pdf", size := 100, filename := "book-1.pdf" }

/-- An oversize upload that is not an image. -/
def bigPdf : IncomingFile :=
  { mimetype := "application/pdf", size := 6 * 1024 * 1024, filename := "book-2.pdf" }

/-- An oversize image upload. -/
def bigPng : IncomingFile :=
  { mimetype := "image/png", size := 6 * 1024 * 1024, filename := "book-3.png" }

/-- A small image upload. -/
def smallPng : IncomingFile :=
  { mimetype := "image/png", size := 1024, filename := "book-4.png" }

/-! # Helper lemmas -/

theorem length_insertLE (le : Book → Book → Bool) (b : Book) (l : List Book) :
    (insertLE le b l).length = l.length + 1 := by
  induction l with
  | nil => rfl
  | cons x xs ih => simp only [insertLE]; split <;> simp [ih]

theorem length_sortBooks (le : Book → Book → Bool) (l : List Book) :
    (sortBooks le l).length = l.length := by
  induction l with
  | nil => rfl
  | cons x xs ih => simp [sortBooks, length_insertLE, ih]

theorem ceil_bounds (a n : Nat) (hn : 1 ≤ n) :
    a ≤ n * ((a + n - 1) / n) ∧ n * ((a + n - 1) / n) ≤ a + n - 1 := by
  have hdm := Nat.div_add_mod (a + n - 1) n
  have hmod : (a + n - 1) % n < n := Nat.mod_lt _ hn
  omega

theorem jsCeilDiv_spec (a : Nat) (b : Int) (hb : 1 ≤ b) :
    (a : Int) ≤ jsCeilDiv a b * b ∧ (jsCeilDiv a b - 1) * b < a := by
  obtain ⟨n, rfl⟩ : ∃ n : Nat, b = (n : Int) :=
    ⟨b.toNat, (Int.toNat_of_nonneg (by omega)).symm⟩
  have hn1 : 1 ≤ n := by exact_mod_cast hb
  have hpos : (0 : Int) < (n : Int) := by exact_mod_cast hn1
  have hdef : jsCeilDiv a n = ((a + n - 1) / n : Nat) := by
    simp [jsCeilDiv, hpos, Int.toNat_natCast]
  obtain ⟨k1, k2⟩ := ceil_bounds a n hn1
  have k1i : (a : Int) ≤ (n : Int) * ((a + n - 1) / n : Nat) := by
    exact_mod_cast k1
  have k2i : (n : Int) * ((a + n - 1) / n : Nat) ≤ (a : Int) + n - 1 := by
    have h := (Nat.cast_le (α := Int)).mpr k2
    have hcast : ((a + n - 1 : Nat) : Int) = (a : Int) + n - 1 := by omega
    rw [Nat.cast_mul, hcast] at h
    exact h
  have hn1i : (1 : Int) ≤ (n : Int) := by exact_mod_cast hn1
  rw [hdef]
  constructor
  · linarith [k1i]
  · linarith [k2i, hn1i]

theorem dot_notMem_of_noRegexMeta (s : String) (hm : noRegexMeta s = true) :
    '.' ∉ s.data := by
  intro h
  have hall := List.all_eq_true.mp hm '.' h
  simp only [decide_eq_true_eq] at hall
  exact hall (by decide)

theorem acceptsAt_eq_literalPrefixCI (ps : List Char) (h : '.' ∉ ps) :
    ∀ ts, acceptsAt ps ts = literalPrefixCI ps ts := by
  induction ps with
  | nil => intro ts; cases ts <;> rfl
  | cons p ps ih =>
    intro ts
    cases ts with
    | nil => rfl
    | cons c cs =>
      have hp : p ≠ '.' := fun hh => h (hh ▸ List.mem_cons_self p ps)
      have hps : '.' ∉ ps := fun hh => h (List.mem_cons_of_mem p hh)
      simp [acceptsAt, literalPrefixCI, charMatches, hp, ih hps]

theorem regexSearch_eq_literalSubCI (ps : List Char) (h : '.' ∉ ps) :
    ∀ ts, regexSearch ps ts = literalSubCI ps ts := by
  intro ts
  induction ts with
  | nil => simp [regexSearch, literalSubCI, acceptsAt_eq_literalPrefixCI ps h]
  | cons c cs ih =>
    simp [regexSearch, literalSubCI, acceptsAt_eq_literalPrefixCI ps h, ih]

theorem searchMatches_eq_literal (s : String) (b : Book)
    (hm : noRegexMeta s = true) :
    searchMatches s b =
      (containsCI s b.title || containsCI s b.author ||
        containsCI s b.description) := by
  have h := dot_notMem_of_noRegexMeta s hm
  simp [searchMatches, mongoRegexMatchCI, containsCI,
    regexSearch_eq_literalSubCI s.data h]

/-! # Claim theorems -/

/-- C1 (counterexample): the search term is *not* treated as plain text.
The term `"G.tsby"` is not a case-insensitive literal substring of any
field of the Gatsby book, yet the book is in the result set, because the
store interprets the term as a regular expression in which `.` matches
any character. -/
theorem search_not_plain_text_cex :
    gatsbyBook ∈ matchedBooks [gatsbyBook] "G.tsby"
    ∧ containsCI "G.tsby" gatsbyBook.title = false
    ∧ containsCI "G.tsby" gatsbyBook.author = false
    ∧ containsCI "G.tsby" gatsbyBook.description = false := by decide

/-- C1 (amended): for a non-empty search term free of regex
metacharacters, a book is in the matched set iff the term occurs
case-insensitively as a literal substring of its title, author, or
description; terms containing metacharacters are interpreted as regex
pattern syntax instead. -/
theorem search_literal_iff_of_noRegexMeta (store : List Book) (s : String)
    (b : Book) (hne : s ≠ "") (hm : noRegexMeta s = true) :
    b ∈ matchedBooks store s ↔
      b ∈ store ∧
        (containsCI s b.title || containsCI s b.author ||
          containsCI s b.description) = true := by
  simp [matchedBooks, hne, List.mem_filter, searchMatches_eq_literal s b hm]

/-- C1 (witness): the Gatsby book is found by `search=gatsby` and
`search=GATSBY`, and the amended iff holds there. -/
theorem search_literal_iff_of_noRegexMeta_witness :
    ("gatsby" ≠ "") ∧ noRegexMeta "gatsby" = true
    ∧ (gatsbyBook ∈ matchedBooks [gatsbyBook] "gatsby" ↔
        gatsbyBook ∈ [gatsbyBook] ∧
          (containsCI "gatsby" gatsbyBook.title ||
            containsCI "gatsby" gatsbyBook.author ||
            containsCI "gatsby" gatsbyBook.description) = true)
    ∧ gatsbyBook ∈ matchedBooks [gatsbyBook] "gatsby"
    ∧ gatsbyBook ∈ matchedBooks [gatsbyBook] "GATSBY" :=
  ⟨by decide, by decide,
    search_literal_iff_of_noRegexMeta [gatsbyBook] "gatsby" gatsbyBook
      (by decide) (by decide),
    by decide, by decide⟩

/-- C2 (code bug): the route applies no bounds to `page` or `limit`.
`limit=500` is served as 500 (above the documented maximum of 100) and
`page=-3` is kept as −3 (below 1). -/
theorem page_limit_not_clamped :
    effectiveLimit (some "500") = 500
    ∧ ¬ effectiveLimit (some "500") ≤ 100
    ∧ effectivePage (some "-3") = -3
    ∧ effectivePage (some "-3") < 1
    ∧ (listBooks [] { limit := some "500" }).limit = 500 := by decide

/-- C3: for any list request with effective page and limit at least 1,
the result holds at most `limit` books, is exactly the window of the
sorted matched set that skips `(page-1)*limit` records, reports
`totalBooks` as the matched count and `totalPages` as the ceiling of
`totalBooks/limit` (characterized by its two bounds), computes the
next/previous flags from `page < totalPages` and `page > 1`, and any
page beyond the last yields an empty set with no error. -/
theorem listBooks_pagination (store : List Book) (q : ListQuery)
    (h1 : 1 ≤ effectivePage q.page) (h2 : 1 ≤ effectiveLimit q.limit) :
    (listBooks store q).data.length ≤ (effectiveLimit q.limit).toNat
    ∧ (listBooks store q).data =
        ((sortBooks
            (bookLE (effectiveSortBy q.sortBy) (q.sortOrder = some "asc"))
            (matchedBooks store (effectiveSearch q.search))).drop
          ((effectivePage q.page - 1) * effectiveLimit q.limit).toNat).take
          (effectiveLimit q.limit).toNat
    ∧ (listBooks store q).totalBooks =
        (matchedBooks store (effectiveSearch q.search)).length
    ∧ ((listBooks store q).totalBooks : Int) ≤
        (listBooks store q).totalPages * effectiveLimit q.limit
    ∧ ((listBooks store q).totalPages - 1) * effectiveLimit q.limit <
        (listBooks store q).totalBooks
    ∧ (listBooks store q).hasNextPage =
        decide ((listBooks store q).currentPage < (listBooks store q).totalPages)
    ∧ (listBooks store q).hasPrevPage =
        decide (1 < (listBooks store q).currentPage)
    ∧ ((listBooks store q).totalPages < effectivePage q.page →
        (listBooks store q).data = []) := by
  obtain ⟨c1, c2⟩ := jsCeilDiv_spec
    (matchedBooks store (effectiveSearch q.search)).length
    (effectiveLimit q.limit) h2
  refine ⟨?_, rfl, rfl, c1, c2, rfl, rfl, fun hgt => ?_⟩
  · have hlen : ∀ (l : List Book) (k : Nat), (l.take k).length ≤ k := by
      intro l k; simp [List.length_take]
    exact hlen _ _
  · have htp : jsCeilDiv
        (matchedBooks store (effectiveSearch q.search)).length
        (effectiveLimit q.limit) < effectivePage q.page := hgt
    have hskip : ((matchedBooks store (effectiveSearch q.search)).length : Int) ≤
        (effectivePage q.page - 1) * effectiveLimit q.limit := by
      calc ((matchedBooks store (effectiveSearch q.search)).length : Int) ≤
          jsCeilDiv (matchedBooks store (effectiveSearch q.search)).length
            (effectiveLimit q.limit) * effectiveLimit q.limit := c1
        _ ≤ (effectivePage q.page - 1) * effectiveLimit q.limit :=
          mul_le_mul_of_nonneg_right (by omega) (by omega)
    have hlen2 : (sortBooks
        (bookLE (effectiveSortBy q.sortBy) (q.sortOrder = some "asc"))
        (matchedBooks store (effectiveSearch q.search))).length ≤
        (listSkip q).toNat := by
      rw [length_sortBooks]
      show (matchedBooks store (effectiveSearch q.search)).length ≤
        ((effectivePage q.page - 1) * effectiveLimit q.limit).toNat
      omega
    show ((sortBooks
        (bookLE (effectiveSortBy q.sortBy) (q.sortOrder = some "asc"))
        (matchedBooks store (effectiveSearch q.search))).drop
      (listSkip q).toNat).take (effectiveLimit q.limit).toNat = []
    rw [List.drop_eq_nil_of_le hlen2]
    simp

/-- C3 (witness): the spec's 47-book example: `limit=10`, `page=5` gives
7 books, 5 total pages, no next page, a previous page; `page=6` is past
the end and gives the empty list. -/
theorem listBooks_pagination_witness :
    1 ≤ effectivePage (some "5") ∧ 1 ≤ effectiveLimit (some "10")
    ∧ (listBooks store47 { page := some "5", limit := some "10" }).data.length ≤
        (effectiveLimit (some "10")).toNat
    ∧ (listBooks store47 { page := some "5", limit := some "10" }).data.length = 7
    ∧ (listBooks store47 { page := some "5", limit := some "10" }).totalBooks = 47
    ∧ (listBooks store47 { page := some "5", limit := some "10" }).totalPages = 5
    ∧ (listBooks store47 { page := some "5", limit := some "10" }).hasNextPage = false
    ∧ (listBooks store47 { page := some "5", limit := some "10" }).hasPrevPage = true
    ∧ (listBooks store47 { page := some "6", limit := some "10" }).data = [] :=
  ⟨by decide, by decide,
    (listBooks_pagination store47 { page := some "5", limit := some "10" }
      (by decide) (by decide)).1,
    by decide, by decide, by decide, by decide, by decide, by decide⟩

/-- C4 (code bug): the `.trim()` sanitizer runs *after* the length
validators, so the description `"   abcdefg"` (raw length 10) passes
`addBookValidation`, yet the stored, trimmed description has length 7,
below the claimed lower bound of 10. -/
theorem description_validated_before_trim :
    addBookValidation "A Title" "An Author" "   abcdefg" = []
    ∧ storedField "   abcdefg" = "abcdefg"
    ∧ (storedField "   abcdefg").length = 7
    ∧ ¬ 10 ≤ (storedField "   abcdefg").length := by decide

/-- C5 (code bug): `sortBy` is not restricted to the documented set.
The value `"image"` is outside {title, author, createdAt, updatedAt},
yet it is used as the sort field and changes the order of the result. -/
theorem sortBy_not_whitelisted :
    effectiveSortBy (some "image") = "image"
    ∧ "image" ∉ ["title", "author", "createdAt", "updatedAt"]
    ∧ (listBooks [bookImgZ, bookImgA] { sortBy := some "image" }).data =
        [bookImgZ, bookImgA]
    ∧ (listBooks [bookImgZ, bookImgA] {}).data = [bookImgA, bookImgZ]
    ∧ (listBooks [bookImgZ, bookImgA] { sortBy := some "image" }).data ≠
        (listBooks [bookImgZ, bookImgA] {}).data := by decide

/-- C6: a malformed identifier fails with `InvalidIdentifier` for every
store (no lookup can influence the outcome); a well-formed identifier
that matches nothing fails with `NotFound`; a matching identifier
returns the book. -/
theorem getBookById_trichotomy (store store' : List Book) (id : String) :
    (isMongoId id = false →
      getBookById store id = GetBookResult.invalidId ∧
        getBookById store id = getBookById store' id)
    ∧ (isMongoId id = true →
        store.find? (fun b => b.id == id) = none →
          getBookById store id = GetBookResult.notFound)
    ∧ (∀ b, isMongoId id = true →
        store.find? (fun b => b.id == id) = some b →
          getBookById store id = GetBookResult.found b) := by
  refine ⟨fun h => ?_, fun h hf => ?_, fun b h hf => ?_⟩ <;>
    simp [getBookById, h, *]

/-- C6 (witness): concrete malformed, missing, and present identifiers. -/
theorem getBookById_trichotomy_witness :
    isMongoId "not-a-valid-identifier!!" = false
    ∧ getBookById [gatsbyBook] "not-a-valid-identifier!!" =
        GetBookResult.invalidId
    ∧ isMongoId "aaaaaaaaaaaaaaaaaaaaaaaa" = true
    ∧ getBookById [gatsbyBook] "aaaaaaaaaaaaaaaaaaaaaaaa" =
        GetBookResult.notFound
    ∧ getBookById [gatsbyBook] "64f5a1b2c3d4e5f6a7b8c9d0" =
        GetBookResult.found gatsbyBook :=
  ⟨by decide,
    ((getBookById_trichotomy [gatsbyBook] [] "not-a-valid-identifier!!").1
      (by decide)).1,
    by decide,
    (getBookById_trichotomy [gatsbyBook] [] "aaaaaaaaaaaaaaaaaaaaaaaa").2.1
      (by decide) (by decide),
    (getBookById_trichotomy [gatsbyBook] [] "64f5a1b2c3d4e5f6a7b8c9d0").2.2
      gatsbyBook (by decide) (by decide)⟩

/-- C7: when a create request carried an accepted upload and then fails
(field validation or the save), the trace issues the unlink of the
uploaded file before the error response, the response status is an error
status, and a failing unlink only adds a log entry — the response is the
same as when the unlink succeeds. -/
theorem create_failure_unlinks_before_response (f : IncomingFile) (v : Bool)
    (save : SaveOutcome) (dOk : Bool)
    (himg : fileFilterOk f = true) (hsize : f.size ≤ maxFileSize)
    (hfail : v = false ∨ save ≠ SaveOutcome.ok) :
    (∃ s, s ≠ 201 ∧
      createBook (some f) v save dOk =
        [Action.persistFile f.filename] ++ (if v then [Action.dbWrite] else [])
          ++ [Action.unlinkFile f.filename]
          ++ (if dOk then [] else [Action.logDeleteError])
          ++ [Action.respond s])
    ∧ responseStatus (createBook (some f) v save dOk) =
        responseStatus (createBook (some f) v save true) := by
  cases v <;> cases save <;> cases dOk <;>
    simp_all [createBook, processUpload, unlinkActions, responseStatus,
      uploadErrStatus]

/-- C7 (witness): a validation failure with an uploaded image and a
failing compensating delete. -/
theorem create_failure_unlinks_before_response_witness :
    fileFilterOk smallPng = true ∧ smallPng.size ≤ maxFileSize
    ∧ ((false : Bool) = false ∨ SaveOutcome.ok ≠ SaveOutcome.ok)
    ∧ (∃ s, s ≠ 201 ∧
        createBook (some smallPng) false SaveOutcome.ok false =
          [Action.persistFile "book-4.png", Action.unlinkFile "book-4.png",
            Action.logDeleteError, Action.respond s]) := by
  refine ⟨by decide, by decide, Or.inl rfl, ?_⟩
  obtain ⟨⟨s, hs, htr⟩, -⟩ :=
    create_failure_unlinks_before_response smallPng false SaveOutcome.ok false
      (by decide) (by decide) (Or.inl rfl)
  exact ⟨s, hs, by simpa using htr⟩

/-- C8 (counterexample): a non-image upload is rejected, but the plain
`Error` thrown by `fileFilter` reaches the generic branch of the global
error handler: the response is a 500 server error, not the claimed
400-equivalent. -/
theorem nonimage_rejected_500_cex :
    fileFilterOk pdfFile = false
    ∧ createBook (some pdfFile) true SaveOutcome.ok true =
        [Action.respond 500]
    ∧ responseStatus (createBook (some pdfFile) true SaveOutcome.ok true) =
        some 500
    ∧ responseStatus (createBook (some pdfFile) true SaveOutcome.ok true) ≠
        some 400 := by decide

/-- C8 (amended): a non-image upload is rejected before any bytes are
persisted and before any database write is attempted, but the rejection
is surfaced as a 500 server error rather than a 400 client error. -/
theorem nonimage_rejected_before_persist (f : IncomingFile) (v : Bool)
    (save : SaveOutcome) (dOk : Bool) (h : fileFilterOk f = false) :
    createBook (some f) v save dOk = [Action.respond 500]
    ∧ Action.dbWrite ∉ createBook (some f) v save dOk
    ∧ (∀ n, Action.persistFile n ∉ createBook (some f) v save dOk) := by
  have htr : createBook (some f) v save dOk = [Action.respond 500] := by
    simp [createBook, processUpload, h, uploadErrStatus]
  exact ⟨htr, by simp [htr], fun n => by simp [htr]⟩

/-- C8 (witness): the concrete PDF upload. -/
theorem nonimage_rejected_before_persist_witness :
    fileFilterOk pdfFile = false
    ∧ createBook (some pdfFile) false SaveOutcome.persistenceError false =
        [Action.respond 500] :=
  ⟨by decide,
    (nonimage_rejected_before_persist pdfFile false
      SaveOutcome.persistenceError false (by decide)).1⟩

/-- C9 (counterexample): an upload exceeding 5 MB whose content type is
not an image is rejected by the type filter as a generic 500, not with
the claimed `PayloadTooLarge` 400 — the size limit never gets to act. -/
theorem oversize_nonimage_cex :
    maxFileSize < bigPdf.size
    ∧ createBook (some bigPdf) true SaveOutcome.ok true =
        [Action.respond 500]
    ∧ responseStatus (createBook (some bigPdf) true SaveOutcome.ok true) ≠
        some 400 := by decide

/-- C9 (amended): an *image* upload exceeding 5 MB is rejected with the
`LIMIT_FILE_SIZE` 400 response before any database write (its partial
write is removed), and an image upload of at most 5 MB is never rejected
for size: the upload stage accepts it. -/
theorem oversize_image_rejected_400 (f : IncomingFile) (v : Bool)
    (save : SaveOutcome) (dOk : Bool) (himg : fileFilterOk f = true) :
    (maxFileSize < f.size →
      createBook (some f) v save dOk =
        [Action.persistFile f.filename, Action.unlinkFile f.filename,
          Action.respond 400]
      ∧ Action.dbWrite ∉ createBook (some f) v save dOk
      ∧ responseStatus (createBook (some f) v save dOk) = some 400)
    ∧ (f.size ≤ maxFileSize →
        processUpload (some f) =
          (Except.ok (some f), [Action.persistFile f.filename])) := by
  constructor
  · intro hbig
    have htr : createBook (some f) v save dOk =
        [Action.persistFile f.filename, Action.unlinkFile f.filename,
          Action.respond 400] := by
      simp [createBook, processUpload, himg, Nat.not_le.mpr hbig,
        uploadErrStatus]
    exact ⟨htr, by simp [htr], by simp [htr, responseStatus]⟩
  · intro hsm
    simp [processUpload, himg, hsm]

/-- C9 (witness): a 6 MB PNG is rejected with the 400 and no database
write. -/
theorem oversize_image_rejected_400_witness :
    fileFilterOk bigPng = true ∧ maxFileSize < bigPng.size
    ∧ createBook (some bigPng) true SaveOutcome.ok true =
        [Action.persistFile "book-3.png", Action.unlinkFile "book-3.png",
          Action.respond 400] := by
  refine ⟨by decide, by decide, ?_⟩
  have h := (oversize_image_rejected_400 bigPng true SaveOutcome.ok true
    (by decide)).1 (by decide)
  simpa using h.1

/-- C10: an absent, unparsable, or zero `page`/`limit` falls back to its
default (1 and 10); any other parsed integer — negative or above 100
included — is kept and fed unchanged into the skip computation and the
fetch, and echoed in the pagination envelope. -/
theorem query_defaulting (s : String) (n : Int) :
    effectivePage none = 1 ∧ effectiveLimit none = 10
    ∧ (parseIntJS s = none →
        effectivePage (some s) = 1 ∧ effectiveLimit (some s) = 10)
    ∧ (parseIntJS s = some 0 →
        effectivePage (some s) = 1 ∧ effectiveLimit (some s) = 10)
    ∧ (parseIntJS s = some n → n ≠ 0 →
        effectivePage (some s) = n ∧ effectiveLimit (some s) = n)
    ∧ listSkip { page := some s, limit := some s } =
        (effectivePage (some s) - 1) * effectiveLimit (some s)
    ∧ (∀ store q, (listBooks store q).currentPage = effectivePage q.page
        ∧ (listBooks store q).limit = effectiveLimit q.limit
        ∧ (listBooks store q).data =
            ((sortBooks
                (bookLE (effectiveSortBy q.sortBy) (q.sortOrder = some "asc"))
                (matchedBooks store (effectiveSearch q.search))).drop
              (listSkip q).toNat).take (effectiveLimit q.limit).toNat) := by
  refine ⟨rfl, rfl, fun h => ?_, fun h => ?_, fun h hn => ?_, rfl,
    fun store q => ⟨rfl, rfl, rfl⟩⟩ <;>
    simp [effectivePage, effectiveLimit, *]

/-- C10 (witness): concrete absent/unparsable/zero/negative/large
values. -/
theorem query_defaulting_witness :
    parseIntJS "abc" = none ∧ effectivePage (some "abc") = 1
    ∧ effectiveLimit (some "abc") = 10
    ∧ parseIntJS "0" = some 0 ∧ effectiveLimit (some "0") = 10
    ∧ parseIntJS "500" = some 500 ∧ effectiveLimit (some "500") = 500
    ∧ parseIntJS "-7" = some (-7) ∧ effectivePage (some "-7") = -7 :=
  ⟨by decide,
    ((query_defaulting "abc" 0).2.2.1 (by decide)).1,
    ((query_defaulting "abc" 0).2.2.1 (by decide)).2,
    by decide,
    ((query_defaulting "0" 0).2.2.2.1 (by decide)).2,
    by decide,
    ((query_defaulting "500" 500).2.2.2.2.1 (by decide) (by decide)).2,
    by decide,
    ((query_defaulting "-7" (-7)).2.2.2.2.1 (by decide) (by decide)).1⟩

end BooksApi
